import Mathlib

/-!
# xylo_led: a USB LED-mask driver for the Xylo card

A shallow embedding of `xylo_led.c`.  Every driver function is a Lean function of the
same name.  The USB core, the kernel log and the sleep primitive are collaborators:

* the USB transport is an arbitrary oracle that sees the complete history of what the
  driver did so far and the call being made, and answers with the C `int` the call
  returns;
* every transfer (with everything passed to it) and every sleep is appended to a trace;
* `struct usb_xylo_led *` arguments that the C code mutates are passed in and returned;
* a dereference of a NULL session pointer is an `Outcome.oops`.
-/

namespace XyloLed

/-! ## Collaborators -/

/-- The handle `struct usb_device *`. -/
abbrev usb_device := Nat

/-- Pipes as built by `usb_sndctrlpipe (dev, ep)` and `usb_sndbulkpipe (dev, ep)`:
host-to-device, to endpoint `endpoint` of device `dev`. -/
inductive Pipe where
  | sndctrl (dev : usb_device) (endpoint : Nat)
  | sndbulk (dev : usb_device) (endpoint : Nat)
  deriving DecidableEq, Repr

/-- One call into the USB core, with the arguments the driver passes.  `data` holds the
bytes that are handed over: the first `size` (resp. `len`) bytes of the buffer. -/
inductive Call where
  | control (dev : usb_device) (pipe : Pipe) (request requesttype value index : Nat)
      (data : List Nat) (size : Nat) (timeout : Nat)
  | bulk (dev : usb_device) (pipe : Pipe) (data : List Nat) (len : Nat) (timeout : Nat)
  | set_interface (dev : usb_device) (ifnum alternate : Nat)
  deriving DecidableEq, Repr

/-- What the outside world observes of the driver, in order. -/
inductive Event where
  | xfer (call : Call) (ret : Int)
  | msleep (msecs : Nat)
  deriving DecidableEq, Repr

/-- The lines the driver writes to the kernel log (`printk`, `dev_err`, `dev_info`); the
argument is the value printed with `%d`. -/
inductive KMsg where
  | send_bulk_ledmask_char_error (ret : Int)
  | send_bulk_ledmask_buf_error (ret : Int)
  | init_xylo_card_returns (ret : Int)
  | probe_entered
  | out_of_memory
  | probe_device_create_file_error
  | probe_set_interface_error
  | probe_init_xylo_card_returns (ret : Int)
  | open_no_device (minor : Nat)
  | now_disconnected
  deriving DecidableEq, Repr

/-- The kernel the driver runs in.  `usb` is the transport: given everything that
happened so far and the call, the `int` that the call returns.  `HZ` is the kernel
constant of that name; `kmalloc_ok` and `device_create_file` are the outcomes of the two
non-USB services `xylo_led_probe` uses. -/
structure Kernel where
  HZ : Nat
  usb : List Event → Call → Int
  kmalloc_ok : Bool
  device_create_file : Int

/-- The observable state outside the driver: the trace of transfers and sleeps, and the
kernel log. -/
structure World where
  trace : List Event
  klog : List KMsg
  deriving DecidableEq, Repr

def printk (w : World) (m : KMsg) : World :=
  { w with klog := w.klog ++ [m] }

def msleep (w : World) (msecs : Nat) : World :=
  { w with trace := w.trace ++ [Event.msleep msecs] }

/-- Perform `c`: ask the transport, record call and result. -/
def usb_call (K : Kernel) (w : World) (c : Call) : Int × World :=
  (K.usb w.trace c, { w with trace := w.trace ++ [Event.xfer c (K.usb w.trace c)] })

def usb_control_msg (K : Kernel) (w : World) (dev : usb_device) (pipe : Pipe)
    (request requesttype value index : Nat) (data : List Nat) (size : Nat)
    (timeout : Nat) : Int × World :=
  usb_call K w (Call.control dev pipe request requesttype value index (data.take size) size
    timeout)

def usb_bulk_msg (K : Kernel) (w : World) (dev : usb_device) (pipe : Pipe)
    (data : List Nat) (len : Nat) (timeout : Nat) : Int × World :=
  usb_call K w (Call.bulk dev pipe (data.take len) len timeout)

def usb_set_interface (K : Kernel) (w : World) (dev : usb_device) (ifnum alternate : Nat) :
    Int × World :=
  usb_call K w (Call.set_interface dev ifnum alternate)

/-! ## C integers -/

/-- The conversion to `unsigned char`. -/
def to_uchar (x : Int) : Nat := (x % 256).toNat

/-- The conversion of an `unsigned int` value to `int` (two's complement, 32 bits). -/
def to_int (u : Nat) : Int :=
  if u % 2 ^ 32 < 2 ^ 31 then ((u % 2 ^ 32 : Nat) : Int) else ((u % 2 ^ 32 : Nat) : Int) - 2 ^ 32

/-- The conversion of an `int` to `unsigned int`. -/
def to_uint (x : Int) : Nat := (x % 2 ^ 32).toNat

/-- The conversion of a `size_t` to `ssize_t` (two's complement, 64 bits). -/
def to_ssize_t (n : Nat) : Int :=
  if n % 2 ^ 64 < 2 ^ 63 then ((n % 2 ^ 64 : Nat) : Int) else ((n % 2 ^ 64 : Nat) : Int) - 2 ^ 64

/-- The four bytes of an `int` object in memory, lowest address first (little-endian, as
on the x86 hosts the card is used with). -/
def int_bytes (x : Int) : List Nat :=
  [to_uint x % 256, to_uint x / 256 % 256, to_uint x / 65536 % 256, to_uint x / 16777216 % 256]

/-! ## The driver's data -/

/-- The `struct usb_xylo_led`. -/
structure usb_xylo_led where
  udev : usb_device
  ledmask : Int
  deriving DecidableEq, Repr

/-! ## Ledmask register -/

def xylo_led_send_bulk_ledmask (K : Kernel) (dev : usb_xylo_led) (w : World) : Int × World :=
  usb_bulk_msg K w dev.udev (Pipe.sndbulk dev.udev 2) (int_bytes dev.ledmask) 1 (2 * K.HZ)

/-- The parameter `mask` is an `unsigned char`. -/
def xylo_led_send_bulk_ledmask_char (K : Kernel) (dev : usb_xylo_led) (mask : Nat) (w : World) :
    Int × usb_xylo_led × World :=
  let dev := { dev with ledmask := (mask : Int) }
  let r := xylo_led_send_bulk_ledmask K dev w
  let w := if r.1 < 0 then printk r.2 (KMsg.send_bulk_ledmask_char_error r.1) else r.2
  (r.1, dev, w)

/-! ## The kernel's text routines

`sscanf` and `sprintf` belong to the kernel library (`lib/vsprintf.c`), not to the
driver.  Only the two formats the driver uses are modelled: `"%x"` for reading and
`"0x%x\n"` for writing.  Texts are lists of bytes; reading past the end of a list reads
the terminating NUL. -/

def isdigit (c : Nat) : Bool := 48 ≤ c && c ≤ 57

def isxdigit (c : Nat) : Bool := isdigit c || (65 ≤ c && c ≤ 70) || (97 ≤ c && c ≤ 102)

/-- White space of the kernel's `_ctype` table: TAB..CR, space, and 0xa0. -/
def isspace (c : Nat) : Bool := (9 ≤ c && c ≤ 13) || c == 32 || c == 160

def skip_spaces : List Nat → List Nat
  | [] => []
  | c :: s => if isspace c then skip_spaces s else c :: s

/-- The value of one hexadecimal digit: `isdigit (c) ? c - '0' : (c | 0x20) - 'a' + 10`. -/
def hex_value (c : Nat) : Nat := if isdigit c then c - 48 else (c ||| 32) - 97 + 10

/-- The digit loop of `simple_strtoull` in base 16, on `unsigned long long`. -/
def strtoull_digits (result : Nat) : List Nat → Nat
  | [] => result
  | c :: s =>
    if isxdigit c then strtoull_digits ((result * 16 + hex_value c) % 2 ^ 64) s else result

/-- The routine `simple_strtoull (cp, &next, 16)`: an optional `0x` / `0X` is skipped, then
the run of hexadecimal digits is accumulated. -/
def simple_strtoull_16 (cp : List Nat) : Nat :=
  strtoull_digits 0
    (if cp.headD 0 = 48 ∧ (cp.tail.headD 0 ||| 32) = 120 then cp.drop 2 else cp)

/-- The call `sscanf (buf, "%x", &mask)`: the number of conversions done and the value of
`mask` afterwards.  Leading white space is skipped; when what follows does not start with
a hexadecimal digit nothing is converted and `mask` keeps its value. -/
def sscanf_x (buf : List Nat) (mask : Int) : Int × Int :=
  if (skip_spaces buf).headD 0 = 0 ∨ isxdigit ((skip_spaces buf).headD 0) = false then (0, mask)
  else (1, to_int (simple_strtoull_16 (skip_spaces buf)))

/-- The character of the digit `d < 16`: `"0123456789abcdef"[d]`. -/
def hex_digit (d : Nat) : Nat := if d < 10 then 48 + d else 87 + d

/-- The digits `%x` prints for `num`: lower case, no leading zeros, `"0"` for zero. -/
def number_16 (num : Nat) : List Nat :=
  if num < 16 then [hex_digit num] else number_16 (num / 16) ++ [hex_digit (num % 16)]
termination_by num
decreasing_by omega

/-- The text produced by `sprintf (buf, "0x%x\n", x)` for an `int` x. -/
def sprintf_0x_x_nl (x : Int) : List Nat := [48, 120] ++ number_16 (to_uint x) ++ [10]

/-! ## Ledmask register, continued -/

def xylo_led_send_bulk_ledmask_buf (K : Kernel) (dev : usb_xylo_led) (buf : List Nat)
    (w : World) : Int × usb_xylo_led × World :=
  let mask := (sscanf_x buf 0).2
  let dev := { dev with ledmask := (to_uchar mask : Int) }
  let r := xylo_led_send_bulk_ledmask K dev w
  let w := if r.1 < 0 then printk r.2 (KMsg.send_bulk_ledmask_buf_error r.1) else r.2
  (r.1, dev, w)

/-! ## Animation -/

/-- The loop `while (k < 8)` of `xylo_led_animation`, entered with the given `k`. -/
def xylo_led_animation_while (K : Kernel) (dev : usb_xylo_led) (k : Nat) (w : World) :
    usb_xylo_led × World :=
  if k < 8 then
    xylo_led_animation_while K (xylo_led_send_bulk_ledmask_char K dev (to_uchar k) w).2.1 (k + 1)
      (msleep (xylo_led_send_bulk_ledmask_char K dev (to_uchar k) w).2.2 50)
  else (dev, w)
termination_by 8 - k
decreasing_by omega

/-- The loop `for (...; k < 4; k++)` of `xylo_led_animation`, entered with the given `k`. -/
def xylo_led_animation_for (K : Kernel) (dev : usb_xylo_led) (k : Nat) (w : World) :
    usb_xylo_led × World :=
  if k < 4 then
    xylo_led_animation_for K
      (xylo_led_send_bulk_ledmask_char K dev (to_uchar (0xff * (k % 2))) w).2.1 (k + 1)
      (msleep (xylo_led_send_bulk_ledmask_char K dev (to_uchar (0xff * (k % 2))) w).2.2 50)
  else (dev, w)
termination_by 4 - k
decreasing_by omega

def xylo_led_animation (K : Kernel) (dev : usb_xylo_led) (w : World) : usb_xylo_led × World :=
  xylo_led_animation_for K (xylo_led_animation_while K dev 0 w).1 0
    (xylo_led_animation_while K dev 0 w).2

/-! ## Bring-up -/

/-- The array `char packets[11][16]`, as bytes; the last row is padded with zeros. -/
def packets : List (List Nat) :=
  [[0x75, 0x81, 0x5f, 0x90, 0xe6, 0x00, 0x74, 0x0a, 0xf0, 0x90, 0xe6, 0x7a, 0x74, 0x01, 0xf0, 0x11],
   [0x9b, 0x90, 0xe6, 0x18, 0x74, 0x10, 0xf0, 0x11, 0x9b, 0x90, 0xe6, 0x19, 0x74, 0x10, 0xf0, 0x11],
   [0x9b, 0x90, 0xe6, 0x1a, 0x74, 0x0c, 0xf0, 0x11, 0x9b, 0x90, 0xe6, 0x1b, 0x74, 0x0c, 0xf0, 0x11],
   [0x9b, 0x90, 0xe6, 0x02, 0x74, 0x98, 0xf0, 0x11, 0x9b, 0x90, 0xe6, 0x03, 0x74, 0xfe, 0xf0, 0x90],
   [0xe6, 0x70, 0x74, 0x80, 0xf0, 0x11, 0x9b, 0x90, 0xe6, 0x01, 0x74, 0x03, 0xf0, 0x90, 0xe6, 0x8d],
   [0xf0, 0xe5, 0xba, 0x20, 0xe1, 0xfb, 0x90, 0xe6, 0x8d, 0xe0, 0x60, 0x25, 0x90, 0xe7, 0x80, 0xb4],
   [0x04, 0x27, 0xe0, 0xf5, 0xb2, 0xa3, 0xe0, 0xf5, 0xb5, 0xa3, 0xe0, 0xf5, 0xb0, 0xa3, 0xe0, 0x90],
   [0xe6, 0x09, 0xf0, 0x90, 0xe7, 0xc0, 0xe5, 0xb0, 0xf0, 0x90, 0xe6, 0x8f, 0x74, 0x01, 0xf0, 0x80],
   [0xcc, 0x90, 0xe7, 0xc0, 0xe5, 0xaa, 0xf0, 0x80, 0xf0, 0xff, 0xe0, 0xa3, 0x7e, 0x08, 0x13, 0x92],
   [0x80, 0xc2, 0x81, 0xd2, 0x81, 0xde, 0xf7, 0xdf, 0xf1, 0x80, 0xb2, 0x00, 0x00, 0x00, 0x00, 0x00],
   [0x00, 0x00, 0x00, 0x00, 0x00, 0x00, 0x00, 0x00, 0x00, 0x00, 0x22, 0x00, 0x00, 0x00, 0x00, 0x00]]

/-- The row `packets[i]`. -/
def packet (i : Nat) : List Nat := packets.getD i []

/-- The string literals `"\x1"` and `"\x0"` are the byte arrays `[1, 0]` and `[0, 0]`. -/
def xylo_led_init_xylo_card (K : Kernel) (udev : usb_xylo_led) (w : World) : Int × World :=
  let r := usb_control_msg K w udev.udev (Pipe.sndctrl udev.udev 0) 0xa0
    0x40 0xe600 0x0000 [0x1, 0] 0x0001 1000
  let w := if r.1 ≠ 0 then printk r.2 (KMsg.init_xylo_card_returns r.1) else r.2
  let r := usb_control_msg K w udev.udev (Pipe.sndctrl udev.udev 0) 0xa0
    0x40 0x0000 0x0000 (packet 0) 0x0010 1000
  let w := if r.1 ≠ 0 then printk r.2 (KMsg.init_xylo_card_returns r.1) else r.2
  let r := usb_control_msg K w udev.udev (Pipe.sndctrl udev.udev 0) 0xa0
    0x40 0x0010 0x0000 (packet 1) 0x0010 1000
  let w := if r.1 ≠ 0 then printk r.2 (KMsg.init_xylo_card_returns r.1) else r.2
  let r := usb_control_msg K w udev.udev (Pipe.sndctrl udev.udev 0) 0xa0
    0x40 0x0020 0x0000 (packet 2) 0x0010 1000
  let w := if r.1 ≠ 0 then printk r.2 (KMsg.init_xylo_card_returns r.1) else r.2
  let r := usb_control_msg K w udev.udev (Pipe.sndctrl udev.udev 0) 0xa0
    0x40 0x0030 0x0000 (packet 3) 0x0010 1000
  let w := if r.1 ≠ 0 then printk r.2 (KMsg.init_xylo_card_returns r.1) else r.2
  let r := usb_control_msg K w udev.udev (Pipe.sndctrl udev.udev 0) 0xa0
    0x40 0x0040 0x0000 (packet 4) 0x0010 1000
  let w := if r.1 ≠ 0 then printk r.2 (KMsg.init_xylo_card_returns r.1) else r.2
  let r := usb_control_msg K w udev.udev (Pipe.sndctrl udev.udev 0) 0xa0
    0x40 0x0050 0x0000 (packet 5) 0x0010 1000
  let w := if r.1 ≠ 0 then printk r.2 (KMsg.init_xylo_card_returns r.1) else r.2
  let r := usb_control_msg K w udev.udev (Pipe.sndctrl udev.udev 0) 0xa0
    0x40 0x0060 0x0000 (packet 6) 0x0010 1000
  let w := if r.1 ≠ 0 then printk r.2 (KMsg.init_xylo_card_returns r.1) else r.2
  let r := usb_control_msg K w udev.udev (Pipe.sndctrl udev.udev 0) 0xa0
    0x40 0x0070 0x0000 (packet 7) 0x0010 1000
  let w := if r.1 ≠ 0 then printk r.2 (KMsg.init_xylo_card_returns r.1) else r.2
  let r := usb_control_msg K w udev.udev (Pipe.sndctrl udev.udev 0) 0xa0
    0x40 0x0080 0x0000 (packet 8) 0x0010 1000
  let w := if r.1 ≠ 0 then printk r.2 (KMsg.init_xylo_card_returns r.1) else r.2
  let r := usb_control_msg K w udev.udev (Pipe.sndctrl udev.udev 0) 0xa0
    0x40 0x0090 0x0000 (packet 9) 0x0010 1000
  let w := if r.1 ≠ 0 then printk r.2 (KMsg.init_xylo_card_returns r.1) else r.2
  let r := usb_control_msg K w udev.udev (Pipe.sndctrl udev.udev 0) 0xa0
    0x40 0x00a0 0x0000 (packet 10) 0x000b 1000
  let w := if r.1 ≠ 0 then printk r.2 (KMsg.init_xylo_card_returns r.1) else r.2
  let r := usb_control_msg K w udev.udev (Pipe.sndctrl udev.udev 0) 0xa0
    0x40 0xe600 0x0000 [0x0, 0] 0x0001 1000
  let w := if r.1 ≠ 0 then printk r.2 (KMsg.init_xylo_card_returns r.1) else r.2
  (r.1, w)

/-! ## The interface and its /sys entry -/

/-- What the driver keeps in the `struct usb_interface`: the pointer stored with
`usb_set_intfdata` (`none` is NULL) and whether the /sys entry `ledmask` exists. -/
structure usb_interface where
  intfdata : Option usb_xylo_led
  attr_ledmask : Bool
  deriving DecidableEq, Repr

/-- How a call ends: it returns a value, or it dereferences a NULL pointer. -/
inductive Outcome (α : Type) where
  | ret (v : α)
  | oops
  deriving DecidableEq, Repr

/-- The value returned and the text left in `buf`.  With no session stored in the
interface, `mydev->ledmask` dereferences NULL. -/
def xylo_led_sys_read (intf : usb_interface) (w : World) : Outcome (Int × List Nat) × World :=
  match intf.intfdata with
  | none => (Outcome.oops, w)
  | some mydev =>
    (Outcome.ret (((sprintf_0x_x_nl mydev.ledmask).length : Int), sprintf_0x_x_nl mydev.ledmask), w)

/-- With no session stored in the interface, `xylo_led_send_bulk_ledmask_buf` is entered
with NULL and `dev->ledmask = ...` dereferences it, before any transfer. -/
def xylo_led_sys_write (K : Kernel) (intf : usb_interface) (buf : List Nat) (count : Nat)
    (w : World) : Outcome Int × usb_interface × World :=
  match intf.intfdata with
  | none => (Outcome.oops, intf, w)
  | some mydev =>
    let r := xylo_led_send_bulk_ledmask_buf K mydev buf w
    if r.1 < 0 then (Outcome.ret r.1, { intf with intfdata := some r.2.1 }, r.2.2)
    else (Outcome.ret (to_ssize_t count), { intf with intfdata := some r.2.1 }, r.2.2)

/-! ## Attach, detach, open -/

def ENOMEM : Int := 12

/-- The session is allocated, stored in the interface and, where the animation runs,
modified in place; the interface returned holds its final contents. -/
def xylo_led_probe (K : Kernel) (udev : usb_device) (intf : usb_interface) (w : World) :
    Int × usb_interface × World :=
  let w := printk w KMsg.probe_entered
  if K.kmalloc_ok = false then (-ENOMEM, intf, printk w KMsg.out_of_memory)
  else
    let xylo_led_dev : usb_xylo_led := { udev := udev, ledmask := 0 }
    let intf := { intf with intfdata := some xylo_led_dev }
    let ret := K.device_create_file
    if ret < 0 then (ret, intf, printk w KMsg.probe_device_create_file_error)
    else
      let intf := { intf with attr_ledmask := true }
      let r := usb_set_interface K w udev 0 1
      if r.1 < 0 then (r.1, intf, printk r.2 KMsg.probe_set_interface_error)
      else
        let r := xylo_led_init_xylo_card K xylo_led_dev r.2
        if r.1 < 0 then (r.1, intf, printk r.2 (KMsg.probe_init_xylo_card_returns r.1))
        else
          let a := xylo_led_animation K xylo_led_dev r.2
          (0, { intf with intfdata := some a.1 }, a.2)

/-- The calls into the USB core found in a trace, in order. -/
def calls : List Event → List Call
  | [] => []
  | Event.xfer c _ :: t => c :: calls t
  | Event.msleep _ :: t => calls t

/-- The results of the calls into the USB core found in a trace, in order. -/
def results : List Event → List Int
  | [] => []
  | Event.xfer _ r :: t => r :: results t
  | Event.msleep _ :: t => results t

/-- The bytes of a text. -/
def bytes (s : String) : List Nat := s.toList.map Char.toNat

/-- A kernel with a fixed transport, `HZ = 250`, and `kmalloc` and `device_create_file`
succeeding. -/
def kernel_with (usb : List Event → Call → Int) : Kernel :=
  { HZ := 250, usb := usb, kmalloc_ok := true, device_create_file := 0 }

/-- The world before anything happened. -/
def World.empty : World := { trace := [], klog := [] }

/-! ## What the driver is expected to put on the trace -/

/-- The control transfer of the bring-up that writes `data` (`size` bytes) to `value`. -/
def bring_up_call (dev : usb_device) (value : Nat) (data : List Nat) (size : Nat) : Call :=
  Call.control dev (Pipe.sndctrl dev 0) 0xa0 0x40 value 0 data size 1000

/-- The thirteen control transfers of `xylo_led_init_xylo_card`, as the source lists them. -/
def bring_up_calls (dev : usb_device) : List Call :=
  [bring_up_call dev 0xe600 [1] 1,
   bring_up_call dev 0x0000 ((packet 0).take 16) 16,
   bring_up_call dev 0x0010 ((packet 1).take 16) 16,
   bring_up_call dev 0x0020 ((packet 2).take 16) 16,
   bring_up_call dev 0x0030 ((packet 3).take 16) 16,
   bring_up_call dev 0x0040 ((packet 4).take 16) 16,
   bring_up_call dev 0x0050 ((packet 5).take 16) 16,
   bring_up_call dev 0x0060 ((packet 6).take 16) 16,
   bring_up_call dev 0x0070 ((packet 7).take 16) 16,
   bring_up_call dev 0x0080 ((packet 8).take 16) 16,
   bring_up_call dev 0x0090 ((packet 9).take 16) 16,
   bring_up_call dev 0x00a0 ((packet 10).take 11) 11,
   bring_up_call dev 0xe600 [0] 1]

/-- Pair each call with a result. -/
def xfers : List Call → List Int → List Event
  | c :: cs, r :: rs => Event.xfer c r :: xfers cs rs
  | _, _ => []

/-- The bulk transfer that carries the ledmask byte `byte` to device `dev`. -/
def ledmask_call (K : Kernel) (dev : usb_device) (byte : Nat) : Call :=
  Call.bulk dev (Pipe.sndbulk dev 2) [byte] 1 (2 * K.HZ)

/-- The ledmask values `xylo_led_animation` writes, in order. -/
def animation_masks : List Nat := [0, 1, 2, 3, 4, 5, 6, 7, 0, 0xff, 0, 0xff]

/-- Ledmask writes of the given values with the given results, each followed by a sleep of
50 ms. -/
def paced_writes (K : Kernel) (dev : usb_device) : List Nat → List Int → List Event
  | v :: vs, r :: rs =>
    Event.xfer (ledmask_call K dev v) r :: Event.msleep 50 :: paced_writes K dev vs rs
  | _, _ => []

/-! ## The specification's wording, and accesses to the attribute -/

/-- The bring-up as the specification words it: reset-assert, then for `i = 0..10` chunk
`i` of the image at address `0x0010 * i` (16 bytes, 11 for the last), then
reset-release. -/
def spec_bring_up_calls (dev : usb_device) : List Call :=
  [Call.control dev (Pipe.sndctrl dev 0) 0xa0 0x40 0xe600 0 [0x01] 1 1000]
    ++ (List.range 11).map (fun i =>
      Call.control dev (Pipe.sndctrl dev 0) 0xa0 0x40 (0x0010 * i) 0
        ((packet i).take (if i < 10 then 16 else 11)) (if i < 10 then 16 else 11) 1000)
    ++ [Call.control dev (Pipe.sndctrl dev 0) 0xa0 0x40 0xe600 0 [0x00] 1 1000]

/-- The payloads of the bulk transfers found in a trace, in order. -/
def ledmask_writes : List Event → List (List Nat)
  | [] => []
  | Event.xfer (Call.bulk _ _ data _ _) _ :: t => data :: ledmask_writes t
  | Event.xfer (Call.control _ _ _ _ _ _ _ _ _) _ :: t => ledmask_writes t
  | Event.xfer (Call.set_interface _ _ _) _ :: t => ledmask_writes t
  | Event.msleep _ :: t => ledmask_writes t

/-- The animation as the specification words it: 0..7, then 0xFF, 0x00, 0xFF, 0x00. -/
def spec_animation_masks : List Nat := [0, 1, 2, 3, 4, 5, 6, 7, 0xFF, 0x00, 0xFF, 0x00]

/-- The value the specification says the bring-up returns: the last error code observed,
an error being a negative result, or zero when no transfer failed. -/
def spec_last_error (rs : List Int) : Int :=
  (rs.reverse.find? (fun r => decide (r < 0))).getD 0

/-- The lines `xylo_led_init_xylo_card` writes to the kernel log for the results `rs`: one
line for every result that is not zero, in order. -/
def init_log_lines (rs : List Int) : List KMsg :=
  (rs.filter (fun r => r != 0)).map KMsg.init_xylo_card_returns

/-- What the USB core answers when a call goes through: `usb_control_msg` returns the
number of bytes transferred, `usb_bulk_msg` and `usb_set_interface` return 0. -/
def answer_of_success : Call → Int
  | Call.control _ _ _ _ _ _ _ size _ => (size : Int)
  | Call.bulk _ _ _ _ _ => 0
  | Call.set_interface _ _ _ => 0

/-- A kernel whose transport answers -110 (`-ETIMEDOUT`) to the calls singled out by `bad`
and lets all others go through. -/
def times_out_on (bad : Call → Bool) : Kernel :=
  kernel_with (fun _ c => if bad c then -110 else answer_of_success c)

/-- A kernel whose transport answers -110 (`-ETIMEDOUT`) to the calls singled out by `bad`
and 0 to all others. -/
def fails_on (bad : Call → Bool) : Kernel :=
  kernel_with (fun _ c => if bad c then -110 else 0)

/-- The transfer of image chunk 5, at address 0x0050. -/
def is_chunk_5 : Call → Bool
  | Call.control _ _ _ _ value _ _ _ _ => value == 0x0050
  | _ => false

/-- The final transfer of the bring-up: the byte 0x00 written to 0xe600. -/
def is_reset_release : Call → Bool
  | Call.control _ _ _ _ value _ data _ _ => value == 0xe600 && data == [0x00]
  | _ => false

@[simp] theorem printk_trace (w : World) (m : KMsg) : (printk w m).trace = w.trace := rfl

@[simp] theorem msleep_trace (w : World) (n : Nat) :
    (msleep w n).trace = w.trace ++ [Event.msleep n] := rfl

@[simp] theorem ite_printk_trace (c : Prop) [Decidable c] (w : World) (m : KMsg) :
    (if c then printk w m else w).trace = w.trace := by
  split <;> rfl

@[simp] theorem ite_trace_printk (c : Prop) [Decidable c] (w : World) (m : KMsg) :
    (if c then w else printk w m).trace = w.trace := by
  split <;> rfl

@[simp] theorem msleep_klog (w : World) (n : Nat) : (msleep w n).klog = w.klog := rfl

@[simp] theorem usb_call_klog (K : Kernel) (w : World) (c : Call) :
    (usb_call K w c).2.klog = w.klog := rfl

@[simp] theorem ite_klog_printk (c : Prop) [Decidable c] (w : World) (m : KMsg) :
    (if c then w else printk w m).klog = w.klog ++ if c then [] else [m] := by
  split <;> simp [printk]

theorem init_log_lines_cons (r : Int) (rs : List Int) :
    init_log_lines (r :: rs) = (if r = 0 then [] else [KMsg.init_xylo_card_returns r])
      ++ init_log_lines rs := by
  by_cases h : r = 0 <;> simp [init_log_lines, List.filter_cons, h]

@[simp] theorem usb_call_fst (K : Kernel) (w : World) (c : Call) :
    (usb_call K w c).1 = K.usb w.trace c := rfl

@[simp] theorem usb_call_trace (K : Kernel) (w : World) (c : Call) :
    (usb_call K w c).2.trace = w.trace ++ [Event.xfer c (K.usb w.trace c)] := rfl

@[simp] theorem calls_append (s t : List Event) : calls (s ++ t) = calls s ++ calls t := by
  induction s with
  | nil => rfl
  | cons e s ih => cases e <;> simp [calls, ih]

@[simp] theorem results_append (s t : List Event) :
    results (s ++ t) = results s ++ results t := by
  induction s with
  | nil => rfl
  | cons e s ih => cases e <;> simp [results, ih]

theorem calls_xfers (cs : List Call) (rs : List Int) (h : rs.length = cs.length) :
    calls (xfers cs rs) = cs := by
  induction cs generalizing rs with
  | nil => cases rs <;> simp_all [xfers, calls]
  | cons c cs ih =>
    cases rs with
    | nil => simp at h
    | cons r rs => simp [xfers, calls, ih rs (by simpa using h)]

theorem xfers_length (cs : List Call) (rs : List Int) (h : rs.length = cs.length) :
    (xfers cs rs).length = cs.length := by
  induction cs generalizing rs with
  | nil => cases rs <;> rfl
  | cons c cs ih =>
    cases rs with
    | nil => simp at h
    | cons r rs => simp [xfers, ih rs (by simpa using h)]

theorem results_xfers (cs : List Call) (rs : List Int) (h : rs.length = cs.length) :
    results (xfers cs rs) = rs := by
  induction cs generalizing rs with
  | nil => cases rs <;> simp_all [xfers, results]
  | cons c cs ih =>
    cases rs with
    | nil => simp at h
    | cons r rs => simp [xfers, results, ih rs (by simpa using h)]

/-- What `xylo_led_init_xylo_card` does: thirteen transfers are appended to the trace,
each with the result the transport gave, and the value returned is the last result. -/
theorem init_xylo_card_run (K : Kernel) (udev : usb_xylo_led) (w : World) :
    ∃ rs : List Int, rs.length = 13 ∧
      (xylo_led_init_xylo_card K udev w).2.trace
        = w.trace ++ xfers (bring_up_calls udev.udev) rs ∧
      rs.getLast? = some (xylo_led_init_xylo_card K udev w).1 := by
  refine ⟨results ((xylo_led_init_xylo_card K udev w).2.trace.drop w.trace.length), ?_, ?_, ?_⟩ <;>
    simp [xylo_led_init_xylo_card, usb_control_msg, bring_up_calls, bring_up_call, xfers, results]

/-! ## Facts about the ledmask register and the animation -/

theorem int_bytes_take_one (x : Int) : (int_bytes x).take 1 = [to_uchar x] := by
  simp only [int_bytes, to_uint, to_uchar, List.take_succ_cons, List.take_zero, List.cons.injEq,
    and_true]
  omega

theorem to_uchar_to_uchar (x : Int) : to_uchar ((to_uchar x : Nat) : Int) = to_uchar x := by
  simp only [to_uchar]
  omega

theorem to_uchar_ofNat (n : Nat) : to_uchar (n : Int) = n % 256 := by
  simp only [to_uchar]
  omega

theorem send_bulk_ledmask_run (K : Kernel) (dev : usb_xylo_led) (w : World) :
    xylo_led_send_bulk_ledmask K dev w
      = usb_call K w (ledmask_call K dev.udev (to_uchar dev.ledmask)) := by
  simp [xylo_led_send_bulk_ledmask, usb_bulk_msg, ledmask_call, int_bytes_take_one]

theorem send_bulk_ledmask_char_run (K : Kernel) (dev : usb_xylo_led) (mask : Nat) (w : World) :
    (xylo_led_send_bulk_ledmask_char K dev mask w).1
        = K.usb w.trace (ledmask_call K dev.udev (mask % 256)) ∧
      (xylo_led_send_bulk_ledmask_char K dev mask w).2.1 = { dev with ledmask := (mask : Int) } ∧
      (xylo_led_send_bulk_ledmask_char K dev mask w).2.2.trace
        = w.trace ++ [Event.xfer (ledmask_call K dev.udev (mask % 256))
            (K.usb w.trace (ledmask_call K dev.udev (mask % 256)))] := by
  simp [xylo_led_send_bulk_ledmask_char, send_bulk_ledmask_run, to_uchar_ofNat]

theorem send_bulk_ledmask_buf_run (K : Kernel) (dev : usb_xylo_led) (buf : List Nat)
    (w : World) :
    (xylo_led_send_bulk_ledmask_buf K dev buf w).1
        = K.usb w.trace (ledmask_call K dev.udev (to_uchar (sscanf_x buf 0).2)) ∧
      (xylo_led_send_bulk_ledmask_buf K dev buf w).2.1
        = { dev with ledmask := ((to_uchar (sscanf_x buf 0).2 : Nat) : Int) } ∧
      (xylo_led_send_bulk_ledmask_buf K dev buf w).2.2.trace
        = w.trace ++ [Event.xfer (ledmask_call K dev.udev (to_uchar (sscanf_x buf 0).2))
            (K.usb w.trace (ledmask_call K dev.udev (to_uchar (sscanf_x buf 0).2)))] := by
  simp [xylo_led_send_bulk_ledmask_buf, send_bulk_ledmask_run, to_uchar_to_uchar]

theorem animation_run (K : Kernel) (dev : usb_xylo_led) (w : World) :
    ∃ rs : List Int, rs.length = 12 ∧
      (xylo_led_animation K dev w).2.trace
        = w.trace ++ paced_writes K dev.udev animation_masks rs ∧
      (xylo_led_animation K dev w).1 = { dev with ledmask := 0xff } := by
  refine ⟨results ((xylo_led_animation K dev w).2.trace.drop w.trace.length), ?_, ?_, ?_⟩ <;>
    simp [xylo_led_animation, xylo_led_animation_while, xylo_led_animation_for,
      send_bulk_ledmask_char_run, to_uchar_ofNat, to_uchar, animation_masks, paced_writes,
      results]

/-! ## Facts about the text routines -/

theorem hex_digit_facts :
    ∀ d, d < 16 →
      isxdigit (hex_digit d) = true ∧ hex_value (hex_digit d) = d ∧
        isspace (hex_digit d) = false ∧ hex_digit d ≠ 0 ∧ (hex_digit d ||| 32) ≠ 120 ∧
        (hex_digit d = 48 → d = 0) := by
  decide

theorem number_16_lt (n : Nat) (h : n < 16) : number_16 n = [hex_digit n] := by
  rw [number_16]
  simp [h]

theorem number_16_ge (n : Nat) (h : 16 ≤ n) :
    number_16 n = number_16 (n / 16) ++ [hex_digit (n % 16)] := by
  rw [number_16]
  simp [Nat.not_lt.mpr h]

theorem number_16_ne_nil (n : Nat) : number_16 n ≠ [] := by
  by_cases h : n < 16
  · simp [number_16_lt n h]
  · simp [number_16_ge n (Nat.not_lt.mp h)]

/-- The text of a number starts with a digit character, and a leading `0` is the whole
text. -/
theorem number_16_head (n : Nat) :
    ∃ d t, d < 16 ∧ number_16 n = hex_digit d :: t ∧ (d = 0 → t = []) := by
  induction n using Nat.strong_induction_on with
  | _ n ih =>
    by_cases h : n < 16
    · exact ⟨n, [], h, number_16_lt n h, fun _ => rfl⟩
    · have h16 : 16 ≤ n := Nat.not_lt.mp h
      obtain ⟨d, t, hd, ht, hz⟩ := ih (n / 16) (by omega)
      refine ⟨d, t ++ [hex_digit (n % 16)], hd, ?_, ?_⟩
      · rw [number_16_ge n h16, ht]
        rfl
      · intro h0
        have ht0 := hz h0
        subst h0 ht0
        have h1 : n / 16 < 16 := by
          by_contra hc
          rw [number_16_ge (n / 16) (Nat.not_lt.mp hc)] at ht
          have := congrArg List.length ht
          have hne := number_16_ne_nil (n / 16 / 16)
          simp at this
          exact hne this
        rw [number_16_lt _ h1] at ht
        have h2 := (hex_digit_facts (n / 16) h1).2.2.2.2.2 (by simpa using ht)
        omega

/-- Reading back the digits of `n`: the accumulator is shifted and `n` is added, on 64
bits. -/
theorem strtoull_digits_number_16 (n : Nat) :
    ∀ (result : Nat) (rest : List Nat),
      strtoull_digits result (number_16 n ++ rest)
        = strtoull_digits ((result * 16 ^ (number_16 n).length + n) % 2 ^ 64) rest := by
  induction n using Nat.strong_induction_on with
  | _ n ih =>
    intro result rest
    by_cases h : n < 16
    · rw [number_16_lt n h]
      simp [strtoull_digits, (hex_digit_facts n h).1, (hex_digit_facts n h).2.1]
    · have h16 : 16 ≤ n := Nat.not_lt.mp h
      rw [number_16_ge n h16, List.append_assoc, ih (n / 16) (by omega)]
      simp only [List.singleton_append, strtoull_digits,
        (hex_digit_facts (n % 16) (Nat.mod_lt _ (by decide))).1,
        (hex_digit_facts (n % 16) (Nat.mod_lt _ (by decide))).2.1, if_true, List.length_append,
        List.length_singleton, pow_succ]
      congr 1
      rw [← Nat.mul_assoc]
      generalize result * 16 ^ (number_16 (n / 16)).length = q
      omega

theorem strtoull_digits_stop (result : Nat) (rest : List Nat)
    (h : isxdigit (rest.headD 0) = false) : strtoull_digits result rest = result := by
  cases rest with
  | nil => rfl
  | cons c s =>
    have hc : isxdigit c = false := by simpa using h
    simp [strtoull_digits, hc]

/-- The call `sscanf (buf, "%x", &mask)` on the digits of `n`, followed by something that
ends the number: `mask` is `n`, cut to 64 and then 32 bits. -/
theorem sscanf_x_number_16 (n : Nat) (rest : List Nat) (mask : Int)
    (h : isxdigit (rest.headD 0) = false) (hx : (rest.headD 0 ||| 32) ≠ 120) :
    sscanf_x (number_16 n ++ rest) mask = (1, to_int (n % 2 ^ 64)) := by
  obtain ⟨d, t, hd, ht, hz⟩ := number_16_head n
  have hf := hex_digit_facts d hd
  have hskip : skip_spaces (number_16 n ++ rest) = number_16 n ++ rest := by
    rw [ht]
    simp [skip_spaces, hf.2.2.1]
  have hpre : ¬ ((number_16 n ++ rest).headD 0 = 48 ∧
      ((number_16 n ++ rest).tail.headD 0 ||| 32) = 120) := by
    rintro ⟨h1, h2⟩
    rw [ht] at h1 h2
    have hd0 : d = 0 := hf.2.2.2.2.2 (by simpa using h1)
    have ht0 := hz hd0
    subst ht0
    exact hx (by simpa using h2)
  have hval : simple_strtoull_16 (number_16 n ++ rest) = n % 2 ^ 64 := by
    rw [simple_strtoull_16, if_neg hpre, strtoull_digits_number_16, strtoull_digits_stop _ _ h]
    simp
  rw [sscanf_x, hskip, hval]
  have hhead : (number_16 n ++ rest).headD 0 = hex_digit d := by
    rw [ht]
    rfl
  rw [hhead, if_neg]
  simp [hf.1, hf.2.2.2.1]

/-- The same for a text that carries the prefix `0x`. -/
theorem sscanf_x_0x_number_16 (n : Nat) (rest : List Nat) (mask : Int)
    (h : isxdigit (rest.headD 0) = false) :
    sscanf_x ([48, 120] ++ number_16 n ++ rest) mask = (1, to_int (n % 2 ^ 64)) := by
  have hval : simple_strtoull_16 (48 :: 120 :: (number_16 n ++ rest)) = n % 2 ^ 64 := by
    have hp : (120 ||| 32) = 120 := by decide
    simp [simple_strtoull_16, hp, strtoull_digits_number_16, strtoull_digits_stop _ _ h]
  have hs : isspace 48 = false := by decide
  have hd : isxdigit 48 = true := by decide
  simp [sscanf_x, skip_spaces, hs, hd, hval]

theorem to_uchar_to_int (n : Nat) : to_uchar (to_int (n % 2 ^ 64)) = n % 256 := by
  simp only [to_uchar, to_int]
  split <;> omega

/-! ## The claims -/

theorem spec_bring_up_calls_eq (dev : usb_device) :
    spec_bring_up_calls dev = bring_up_calls dev := by
  simp [spec_bring_up_calls, bring_up_calls, bring_up_call, List.range, List.range.loop]

/-- C1: whatever the transport answers, `xylo_led_init_xylo_card` adds exactly thirteen
events to the trace, all of them control transfers with request 0xa0, request type 0x40,
index 0 and timeout 1000, in the order reset-assert (0xe600, byte 0x01), chunks 0..10 of
the image at 0x0000, 0x0010, ..., 0x00a0 (16 bytes each, 11 for the last), reset-release
(0xe600, byte 0x00). -/
theorem C1_bring_up_issues_thirteen_transfers (K : Kernel) (udev : usb_xylo_led) (w : World) :
    calls (xylo_led_init_xylo_card K udev w).2.trace
        = calls w.trace ++ spec_bring_up_calls udev.udev ∧
      (spec_bring_up_calls udev.udev).length = 13 ∧
      (xylo_led_init_xylo_card K udev w).2.trace.length = w.trace.length + 13 := by
  obtain ⟨rs, hlen, htrace, _⟩ := init_xylo_card_run K udev w
  have hl : rs.length = (bring_up_calls udev.udev).length := by simp [hlen, bring_up_calls]
  refine ⟨?_, by simp [spec_bring_up_calls], ?_⟩
  · rw [htrace, calls_append, calls_xfers _ _ hl, spec_bring_up_calls_eq]
  · rw [htrace, List.length_append, xfers_length _ _ hl]
    simp [bring_up_calls]

/-- C2: for every session, every byte `v` and every answer of the transport,
`xylo_led_send_bulk_ledmask_char` leaves `v` in the mirror `ledmask`, hands exactly the
byte `v` to one bulk transfer on endpoint 2, and returns what that transfer returned: the
value is stored before the transfer and stays whatever the result is. -/
theorem C2_set_stores_value_and_returns_transport_result (K : Kernel) (dev : usb_xylo_led)
    (v : Nat) (w : World) (hv : v < 256) :
    (xylo_led_send_bulk_ledmask_char K dev v w).2.1.ledmask = (v : Int) ∧
      (xylo_led_send_bulk_ledmask_char K dev v w).1
        = K.usb w.trace (Call.bulk dev.udev (Pipe.sndbulk dev.udev 2) [v] 1 (2 * K.HZ)) ∧
      (xylo_led_send_bulk_ledmask_char K dev v w).2.2.trace
        = w.trace ++ [Event.xfer (Call.bulk dev.udev (Pipe.sndbulk dev.udev 2) [v] 1 (2 * K.HZ))
            (xylo_led_send_bulk_ledmask_char K dev v w).1] := by
  obtain ⟨h1, h2, h3⟩ := send_bulk_ledmask_char_run K dev v w
  rw [Nat.mod_eq_of_lt hv] at h1 h3
  rw [h3, h2, h1]
  exact ⟨rfl, rfl, rfl⟩

theorem C2_witness :
    (0xa5 : Nat) < 256 ∧
    (xylo_led_send_bulk_ledmask_char (kernel_with (fun _ _ => -110)) ⟨7, 0⟩ 0xa5
        World.empty).2.1.ledmask = (0xa5 : Nat) ∧
      (xylo_led_send_bulk_ledmask_char (kernel_with (fun _ _ => -110)) ⟨7, 0⟩ 0xa5
        World.empty).1 = -110 :=
  ⟨by decide,
    (C2_set_stores_value_and_returns_transport_result (kernel_with (fun _ _ => -110)) ⟨7, 0⟩
      0xa5 World.empty (by decide)).1,
    (C2_set_stores_value_and_returns_transport_result (kernel_with (fun _ _ => -110)) ⟨7, 0⟩
      0xa5 World.empty (by decide)).2.1⟩

/-- C3: for every number `n` (so for every unsigned 32-bit value),
`xylo_led_send_bulk_ledmask_buf` applied to the hexadecimal text of `n`, bare or with the
prefix `0x`, leaves `n mod 256` in the mirror; for a byte `v` the mirror is `v`. -/
theorem C3_hex_text_sets_low_byte (K : Kernel) (dev : usb_xylo_led) (n : Nat) (w : World) :
    (xylo_led_send_bulk_ledmask_buf K dev (number_16 n) w).2.1.ledmask = ((n % 256 : Nat) : Int) ∧
      (xylo_led_send_bulk_ledmask_buf K dev ([48, 120] ++ number_16 n) w).2.1.ledmask
        = ((n % 256 : Nat) : Int) ∧
      (n < 256 →
        (xylo_led_send_bulk_ledmask_buf K dev (number_16 n) w).2.1.ledmask = (n : Int)) := by
  have h1 : sscanf_x (number_16 n) 0 = (1, to_int (n % 2 ^ 64)) := by
    have := sscanf_x_number_16 n [] 0 (by decide) (by decide)
    simpa using this
  have h2 : sscanf_x ([48, 120] ++ number_16 n) 0 = (1, to_int (n % 2 ^ 64)) := by
    have := sscanf_x_0x_number_16 n [] 0 (by decide)
    simpa using this
  have e1 : (xylo_led_send_bulk_ledmask_buf K dev (number_16 n) w).2.1.ledmask
      = ((n % 256 : Nat) : Int) := by
    rw [(send_bulk_ledmask_buf_run K dev (number_16 n) w).2.1, h1, to_uchar_to_int]
  refine ⟨e1, ?_, ?_⟩
  · rw [(send_bulk_ledmask_buf_run K dev _ w).2.1, h2, to_uchar_to_int]
  · intro hn
    rw [e1, Nat.mod_eq_of_lt hn]

theorem C3_witness :
    (xylo_led_send_bulk_ledmask_buf (kernel_with (fun _ _ => 0)) ⟨7, 0⟩ (number_16 0xa5)
      World.empty).2.1.ledmask = ((0xa5 : Nat) : Int) :=
  (C3_hex_text_sets_low_byte (kernel_with (fun _ _ => 0)) ⟨7, 0⟩ 0xa5 World.empty).2.2
    (by decide)

/-- C4: on a live session, writing the hexadecimal text of a byte `v` to the attribute
adds exactly one event to the trace, a bulk transfer to endpoint 2 whose payload is the
single byte `v`; reading the attribute afterwards returns `0x`, the lower-case digits of
`v` without leading zeros, and a newline, and leaves the trace as it is. -/
theorem C4_attribute_write_then_read (K : Kernel) (intf : usb_interface) (dev : usb_xylo_led)
    (v count : Nat) (w : World) (hs : intf.intfdata = some dev) (hv : v < 256) :
    (xylo_led_sys_write K intf (number_16 v) count w).2.2.trace
        = w.trace ++ [Event.xfer (Call.bulk dev.udev (Pipe.sndbulk dev.udev 2) [v] 1 (2 * K.HZ))
            (K.usb w.trace (Call.bulk dev.udev (Pipe.sndbulk dev.udev 2) [v] 1 (2 * K.HZ)))] ∧
      xylo_led_sys_read (xylo_led_sys_write K intf (number_16 v) count w).2.1
          (xylo_led_sys_write K intf (number_16 v) count w).2.2
        = (Outcome.ret ((([48, 120] ++ number_16 v ++ [10]).length : Int),
            [48, 120] ++ number_16 v ++ [10]),
          (xylo_led_sys_write K intf (number_16 v) count w).2.2) := by
  have hscan : sscanf_x (number_16 v) 0 = (1, to_int (v % 2 ^ 64)) := by
    have := sscanf_x_number_16 v [] 0 (by decide) (by decide)
    simpa using this
  obtain ⟨_, h2, h3⟩ := send_bulk_ledmask_buf_run K dev (number_16 v) w
  rw [hscan, to_uchar_to_int, Nat.mod_eq_of_lt hv] at h2 h3
  have hu : to_uint (v : Int) = v := by
    simp only [to_uint]
    omega
  constructor
  · simp only [xylo_led_sys_write, hs]
    split <;> exact h3
  · simp only [xylo_led_sys_write, hs]
    split <;> simp [xylo_led_sys_read, h2, sprintf_0x_x_nl, hu]

theorem number_16_a5 : number_16 0xa5 = bytes "a5" := by
  rw [number_16_ge _ (by decide), number_16_lt _ (by decide)]
  decide

theorem C4_witness :
    (0xa5 : Nat) < 256 ∧
    (xylo_led_sys_write (kernel_with (fun _ _ => 0)) ⟨some ⟨7, 0⟩, true⟩ (bytes "a5") 2
        World.empty).2.2.trace
      = [Event.xfer (Call.bulk 7 (Pipe.sndbulk 7 2) [0xa5] 1 500) 0] ∧
    (xylo_led_sys_read
        (xylo_led_sys_write (kernel_with (fun _ _ => 0)) ⟨some ⟨7, 0⟩, true⟩ (bytes "a5") 2
          World.empty).2.1
        (xylo_led_sys_write (kernel_with (fun _ _ => 0)) ⟨some ⟨7, 0⟩, true⟩ (bytes "a5") 2
          World.empty).2.2).1
      = Outcome.ret (5, bytes "0xa5\n") := by
  have h := C4_attribute_write_then_read (kernel_with (fun _ _ => 0)) ⟨some ⟨7, 0⟩, true⟩
    ⟨7, 0⟩ 0xa5 2 World.empty rfl (by decide)
  rw [number_16_a5] at h
  refine ⟨by decide, h.1, ?_⟩
  rw [h.2]
  decide

/-- C8: for every write of a text of `count` bytes to the attribute of a live session,
`xylo_led_sys_write` makes one bulk transfer and returns `count` when that transfer
returned a non-negative value (success is zero), and the transfer's own negative value
when it failed. -/
theorem C8_attribute_write_return_value (K : Kernel) (intf : usb_interface)
    (dev : usb_xylo_led) (buf : List Nat) (count : Nat) (w : World)
    (hs : intf.intfdata = some dev) (hc : count < 2 ^ 63) :
    ∃ byte : Nat,
      (xylo_led_sys_write K intf buf count w).2.2.trace
        = w.trace ++ [Event.xfer (Call.bulk dev.udev (Pipe.sndbulk dev.udev 2) [byte] 1 (2 * K.HZ))
          (K.usb w.trace (Call.bulk dev.udev (Pipe.sndbulk dev.udev 2) [byte] 1 (2 * K.HZ)))] ∧
      (K.usb w.trace (Call.bulk dev.udev (Pipe.sndbulk dev.udev 2) [byte] 1 (2 * K.HZ)) < 0 →
        (xylo_led_sys_write K intf buf count w).1
          = Outcome.ret
              (K.usb w.trace (Call.bulk dev.udev (Pipe.sndbulk dev.udev 2) [byte] 1 (2 * K.HZ)))) ∧
      (0 ≤ K.usb w.trace (Call.bulk dev.udev (Pipe.sndbulk dev.udev 2) [byte] 1 (2 * K.HZ)) →
        (xylo_led_sys_write K intf buf count w).1 = Outcome.ret (count : Int)) := by
  obtain ⟨h1, _, h3⟩ := send_bulk_ledmask_buf_run K dev buf w
  have hcount : to_ssize_t count = (count : Int) := by
    simp only [to_ssize_t]
    split <;> omega
  refine ⟨to_uchar (sscanf_x buf 0).2, ?_, ?_, ?_⟩
  · simp only [xylo_led_sys_write, hs]
    split <;> exact h3
  · intro hneg
    simp only [xylo_led_sys_write, hs]
    rw [if_pos (by rw [h1]; exact hneg), h1]
    rfl
  · intro hpos
    simp only [xylo_led_sys_write, hs]
    rw [if_neg (by rw [h1]; exact not_lt.mpr hpos), hcount]

theorem C8_witness :
    (2 : Nat) < 2 ^ 63 ∧
    (xylo_led_sys_write (kernel_with (fun _ _ => -110)) ⟨some ⟨7, 0⟩, true⟩ (bytes "a5") 2
        World.empty).1 = Outcome.ret (-110) ∧
    (xylo_led_sys_write (kernel_with (fun _ _ => 0)) ⟨some ⟨7, 0⟩, true⟩ (bytes "a5") 2
        World.empty).1 = Outcome.ret 2 := by
  obtain ⟨_, _, h1, _⟩ := C8_attribute_write_return_value (kernel_with (fun _ _ => -110))
    ⟨some ⟨7, 0⟩, true⟩ ⟨7, 0⟩ (bytes "a5") 2 World.empty rfl (by decide)
  obtain ⟨_, _, _, h2⟩ := C8_attribute_write_return_value (kernel_with (fun _ _ => 0))
    ⟨some ⟨7, 0⟩, true⟩ ⟨7, 0⟩ (bytes "a5") 2 World.empty rfl (by decide)
  exact ⟨by decide, h1 (show (-110 : Int) < 0 by decide), h2 (show (0 : Int) ≤ 0 by decide)⟩

theorem ledmask_writes_append (s t : List Event) :
    ledmask_writes (s ++ t) = ledmask_writes s ++ ledmask_writes t := by
  induction s with
  | nil => rfl
  | cons e s ih =>
    cases e with
    | msleep n => simp [ledmask_writes, ih]
    | xfer c r => cases c <;> simp [ledmask_writes, ih]

theorem ledmask_writes_paced (K : Kernel) (dev : usb_device) (vs : List Nat) (rs : List Int)
    (h : rs.length = vs.length) :
    ledmask_writes (paced_writes K dev vs rs) = vs.map (fun v => [v]) := by
  induction vs generalizing rs with
  | nil => cases rs <;> simp_all [paced_writes, ledmask_writes]
  | cons v vs ih =>
    cases rs with
    | nil => simp at h
    | cons r rs =>
      simp [paced_writes, ledmask_writes, ledmask_call, ih rs (by simpa using h)]

theorem calls_paced (K : Kernel) (dev : usb_device) (vs : List Nat) (rs : List Int)
    (h : rs.length = vs.length) :
    calls (paced_writes K dev vs rs) = vs.map (ledmask_call K dev) := by
  induction vs generalizing rs with
  | nil => cases rs <;> simp_all [paced_writes, calls]
  | cons v vs ih =>
    cases rs with
    | nil => simp at h
    | cons r rs => simp [paced_writes, calls, ih rs (by simpa using h)]

/-- C5, as the code has it: for every session and every answer of the transport,
`xylo_led_animation` adds exactly twelve ledmask writes to the trace, each followed by a
sleep of 50 ms and none dropped whatever the results; the values are, in order,
0, 1, 2, 3, 4, 5, 6, 7, 0x00, 0xFF, 0x00, 0xFF, and the mirror ends as 0xFF. -/
theorem C5_animation_writes (K : Kernel) (dev : usb_xylo_led) (w : World) :
    (∃ rs : List Int, rs.length = 12 ∧
      (xylo_led_animation K dev w).2.trace
        = w.trace ++ paced_writes K dev.udev [0, 1, 2, 3, 4, 5, 6, 7, 0x00, 0xFF, 0x00, 0xFF] rs) ∧
      ledmask_writes (xylo_led_animation K dev w).2.trace
        = ledmask_writes w.trace
          ++ [[0], [1], [2], [3], [4], [5], [6], [7], [0x00], [0xFF], [0x00], [0xFF]] ∧
      (xylo_led_animation K dev w).1.ledmask = 0xFF := by
  obtain ⟨rs, hlen, htrace, hdev⟩ := animation_run K dev w
  refine ⟨⟨rs, hlen, htrace⟩, ?_, by rw [hdev]⟩
  rw [htrace, ledmask_writes_append,
    ledmask_writes_paced _ _ _ _ (by simp [hlen, animation_masks])]
  rfl

/-- C5 as stated fails: with a transport that always succeeds, the values written by
`xylo_led_animation` are not 0..7, 0xFF, 0x00, 0xFF, 0x00; the ninth write is 0x00. -/
theorem C5_counterexample :
    ledmask_writes (xylo_led_animation (kernel_with (fun _ _ => 0)) ⟨7, 0⟩ World.empty).2.trace
        ≠ spec_animation_masks.map (fun v => [v]) ∧
      (ledmask_writes
        (xylo_led_animation (kernel_with (fun _ _ => 0)) ⟨7, 0⟩ World.empty).2.trace)[8]?
        = some [0x00] := by
  obtain ⟨rs, hlen, htrace, _⟩ := animation_run (kernel_with (fun _ _ => 0)) ⟨7, 0⟩ World.empty
  rw [htrace, ledmask_writes_append,
    ledmask_writes_paced _ _ _ _ (by simp [hlen, animation_masks])]
  decide

theorem init_xylo_card_results (K : Kernel) (udev : usb_xylo_led) (w : World) :
    (results ((xylo_led_init_xylo_card K udev w).2.trace.drop w.trace.length)).length = 13 ∧
      (results ((xylo_led_init_xylo_card K udev w).2.trace.drop w.trace.length)).getLast?
        = some (xylo_led_init_xylo_card K udev w).1 := by
  obtain ⟨rs, hlen, htrace, hlast⟩ := init_xylo_card_run K udev w
  have hl : rs.length = (bring_up_calls udev.udev).length := by simp [hlen, bring_up_calls]
  rw [htrace, List.drop_left, results_xfers _ _ hl]
  exact ⟨hlen, hlast⟩

/-- The kernel log after `xylo_led_init_xylo_card`: one line for every result that is not
zero. -/
theorem init_xylo_card_klog (K : Kernel) (udev : usb_xylo_led) (w : World) :
    (xylo_led_init_xylo_card K udev w).2.klog
      = w.klog ++ init_log_lines
          (results ((xylo_led_init_xylo_card K udev w).2.trace.drop w.trace.length)) := by
  simp [xylo_led_init_xylo_card, usb_control_msg, results, init_log_lines_cons]
  simp [init_log_lines]

/-- C6, as the code has it: whatever the thirteen transfers of the bring-up return,
`xylo_led_init_xylo_card` returns the result of the thirteenth, the reset-release; so it
returns zero when all thirteen returned zero.  Every result that is not zero is written to
the kernel log, and that is all that happens to the result of an earlier transfer. -/
theorem C6_bring_up_returns_last_result (K : Kernel) (udev : usb_xylo_led) (w : World) :
    (results ((xylo_led_init_xylo_card K udev w).2.trace.drop w.trace.length)).length = 13 ∧
      (results ((xylo_led_init_xylo_card K udev w).2.trace.drop w.trace.length))[12]?
        = some (xylo_led_init_xylo_card K udev w).1 ∧
      ((∀ r ∈ results ((xylo_led_init_xylo_card K udev w).2.trace.drop w.trace.length), r = 0) →
        (xylo_led_init_xylo_card K udev w).1 = 0) ∧
      (xylo_led_init_xylo_card K udev w).2.klog
        = w.klog ++ init_log_lines
            (results ((xylo_led_init_xylo_card K udev w).2.trace.drop w.trace.length)) := by
  obtain ⟨hlen, hlast⟩ := init_xylo_card_results K udev w
  rw [List.getLast?_eq_getElem?, hlen] at hlast
  refine ⟨hlen, hlast, fun h => ?_, init_xylo_card_klog K udev w⟩
  exact h _ (List.getElem?_mem hlast)

theorem C6_witness :
    (∀ r ∈ results ((xylo_led_init_xylo_card (kernel_with (fun _ _ => 0)) ⟨7, 0⟩
        World.empty).2.trace.drop World.empty.trace.length), r = 0) ∧
      (xylo_led_init_xylo_card (kernel_with (fun _ _ => 0)) ⟨7, 0⟩ World.empty).1 = 0 :=
  ⟨by decide,
    (C6_bring_up_returns_last_result (kernel_with (fun _ _ => 0)) ⟨7, 0⟩ World.empty).2.2.1
      (by decide)⟩

/-- C6 as stated fails: every transfer goes through and answers its byte count, except the
transfer of chunk 5, which fails with -110.  The last error observed is -110, but
`xylo_led_init_xylo_card` returns 1, the byte count of the reset-release; the error is
found in the kernel log only. -/
theorem C6_counterexample :
    results (xylo_led_init_xylo_card (times_out_on is_chunk_5) ⟨7, 0⟩ World.empty).2.trace
        = [1, 16, 16, 16, 16, 16, -110, 16, 16, 16, 16, 11, 1] ∧
      spec_last_error
        (results (xylo_led_init_xylo_card (times_out_on is_chunk_5) ⟨7, 0⟩ World.empty).2.trace)
        = -110 ∧
      (xylo_led_init_xylo_card (times_out_on is_chunk_5) ⟨7, 0⟩ World.empty).1 = 1 ∧
      (xylo_led_init_xylo_card (times_out_on is_chunk_5) ⟨7, 0⟩ World.empty).1
        ≠ spec_last_error
            (results
              (xylo_led_init_xylo_card (times_out_on is_chunk_5) ⟨7, 0⟩ World.empty).2.trace) ∧
      KMsg.init_xylo_card_returns (-110)
        ∈ (xylo_led_init_xylo_card (times_out_on is_chunk_5) ⟨7, 0⟩ World.empty).2.klog := by
  decide

/-- What `xylo_led_probe` does once the session is allocated, the /sys entry is created and
the alternate setting is selected: the bring-up runs, and the sign of its last result
decides whether the animation follows. -/
theorem probe_run (K : Kernel) (udev : usb_device) (intf : usb_interface) (w : World)
    (hk : K.kmalloc_ok = true) (hc : 0 ≤ K.device_create_file)
    (hs : 0 ≤ K.usb w.trace (Call.set_interface udev 0 1)) :
    ∃ (r0 r13 : Int) (rs ra : List Int), rs.length = 13 ∧ ra.length = 12 ∧
      rs.getLast? = some r13 ∧
      (r13 < 0 →
        (xylo_led_probe K udev intf w).1 = r13 ∧
        (xylo_led_probe K udev intf w).2.2.trace
          = w.trace ++ (Event.xfer (Call.set_interface udev 0 1) r0
              :: xfers (bring_up_calls udev) rs) ∧
        (xylo_led_probe K udev intf w).2.1.intfdata = some ⟨udev, 0⟩) ∧
      (0 ≤ r13 →
        (xylo_led_probe K udev intf w).1 = 0 ∧
        (xylo_led_probe K udev intf w).2.2.trace
          = w.trace ++ (Event.xfer (Call.set_interface udev 0 1) r0
              :: (xfers (bring_up_calls udev) rs
                ++ paced_writes K udev animation_masks ra)) ∧
        (xylo_led_probe K udev intf w).2.1.intfdata = some ⟨udev, 0xff⟩) := by
  obtain ⟨rs, hlen, htrace, hlast⟩ := init_xylo_card_run K ⟨udev, 0⟩
    (usb_set_interface K (printk w KMsg.probe_entered) udev 0 1).2
  obtain ⟨ra, halen, hatrace, hadev⟩ := animation_run K ⟨udev, 0⟩
    (xylo_led_init_xylo_card K ⟨udev, 0⟩
      (usb_set_interface K (printk w KMsg.probe_entered) udev 0 1).2).2
  have hs2 : ¬ (usb_set_interface K (printk w KMsg.probe_entered) udev 0 1).1 < 0 :=
    not_lt.mpr hs
  refine ⟨K.usb w.trace (Call.set_interface udev 0 1), _, rs, ra, hlen, halen, hlast, ?_, ?_⟩
  · intro hneg
    simp only [xylo_led_probe, hk, Bool.true_eq_false, if_false, not_lt.mpr hc, hs2, hneg,
      if_true, printk_trace, htrace]
    simp [usb_set_interface]
  · intro hpos
    simp only [xylo_led_probe, hk, Bool.true_eq_false, if_false, not_lt.mpr hc, hs2,
      not_lt.mpr hpos, hatrace, htrace, hadev]
    simp [usb_set_interface]

/-- C7, as the code has it: with the session allocated, the /sys entry created and the
alternate setting selected, `xylo_led_probe` makes the thirteen control transfers of the
bring-up, whatever they return.  When the last of them (the reset-release) returned a
non-negative value, whatever the other twelve returned, the animation follows with its
twelve ledmask writes and `xylo_led_probe` returns 0 with the session stored in the
interface.  When the last one returned a negative value, `xylo_led_probe` returns that
value and makes no ledmask write. -/
theorem C7_attach_runs_animation_unless_last_transfer_fails (K : Kernel) (udev : usb_device)
    (intf : usb_interface) (w : World) (hk : K.kmalloc_ok = true)
    (hc : 0 ≤ K.device_create_file) (hs : 0 ≤ K.usb w.trace (Call.set_interface udev 0 1)) :
    ∃ r13 : Int,
      (results ((xylo_led_probe K udev intf w).2.2.trace.drop w.trace.length))[13]? = some r13 ∧
      (calls ((xylo_led_probe K udev intf w).2.2.trace.drop w.trace.length)).take 14
        = Call.set_interface udev 0 1 :: spec_bring_up_calls udev ∧
      (0 ≤ r13 →
        (xylo_led_probe K udev intf w).1 = 0 ∧
        calls ((xylo_led_probe K udev intf w).2.2.trace.drop w.trace.length)
          = Call.set_interface udev 0 1 :: (spec_bring_up_calls udev
              ++ [0, 1, 2, 3, 4, 5, 6, 7, 0x00, 0xFF, 0x00, 0xFF].map (fun v =>
                  Call.bulk udev (Pipe.sndbulk udev 2) [v] 1 (2 * K.HZ))) ∧
        (∃ dev, (xylo_led_probe K udev intf w).2.1.intfdata = some dev)) ∧
      (r13 < 0 →
        (xylo_led_probe K udev intf w).1 = r13 ∧
        calls ((xylo_led_probe K udev intf w).2.2.trace.drop w.trace.length)
          = Call.set_interface udev 0 1 :: spec_bring_up_calls udev) := by
  obtain ⟨r0, r13, rs, ra, hlen, halen, hlast, hneg, hpos⟩ := probe_run K udev intf w hk hc hs
  have hl : rs.length = (bring_up_calls udev).length := by simp [hlen, bring_up_calls]
  have hal : ra.length = animation_masks.length := by simp [halen, animation_masks]
  have h12 : rs[12]? = some r13 := by
    rw [List.getLast?_eq_getElem?, hlen] at hlast
    exact hlast
  have hb : (bring_up_calls udev).length = 13 := by simp [bring_up_calls]
  refine ⟨r13, ?_, ?_, ?_, ?_⟩
  · rcases lt_or_le r13 0 with h | h
    · rw [(hneg h).2.1, List.drop_left]
      simp [results, results_xfers _ _ hl, h12]
    · rw [(hpos h).2.1, List.drop_left]
      simp only [results, results_append, results_xfers _ _ hl]
      rw [List.getElem?_cons_succ, List.getElem?_append_left (by omega)]
      exact h12
  · rcases lt_or_le r13 0 with h | h
    · rw [(hneg h).2.1, List.drop_left]
      simp [calls, calls_xfers _ _ hl, spec_bring_up_calls_eq, List.take_of_length_le, hb]
    · rw [(hpos h).2.1, List.drop_left]
      simp [calls, calls_xfers _ _ hl, spec_bring_up_calls_eq, List.take_append_of_le_length,
        List.take_of_length_le, hb]
  · intro h
    refine ⟨(hpos h).1, ?_, _, (hpos h).2.2⟩
    rw [(hpos h).2.1, List.drop_left]
    simp only [calls, calls_append, calls_xfers _ _ hl, calls_paced _ _ _ _ hal,
      spec_bring_up_calls_eq]
    rfl
  · intro h
    refine ⟨(hneg h).1, ?_⟩
    rw [(hneg h).2.1, List.drop_left]
    simp [calls, calls_xfers _ _ hl, spec_bring_up_calls_eq]

theorem C7_witness :
    (fails_on is_chunk_5).kmalloc_ok = true ∧
    0 ≤ (fails_on is_chunk_5).device_create_file ∧
    0 ≤ (fails_on is_chunk_5).usb World.empty.trace (Call.set_interface 7 0 1) ∧
    ∃ r13 : Int,
      (results ((xylo_led_probe (fails_on is_chunk_5) 7 ⟨none, false⟩ World.empty).2.2.trace.drop
        World.empty.trace.length))[13]? = some r13 ∧
      (calls ((xylo_led_probe (fails_on is_chunk_5) 7 ⟨none, false⟩ World.empty).2.2.trace.drop
        World.empty.trace.length)).take 14
        = Call.set_interface 7 0 1 :: spec_bring_up_calls 7 ∧
      (0 ≤ r13 →
        (xylo_led_probe (fails_on is_chunk_5) 7 ⟨none, false⟩ World.empty).1 = 0 ∧
        calls ((xylo_led_probe (fails_on is_chunk_5) 7 ⟨none, false⟩ World.empty).2.2.trace.drop
          World.empty.trace.length)
          = Call.set_interface 7 0 1 :: (spec_bring_up_calls 7
              ++ [0, 1, 2, 3, 4, 5, 6, 7, 0x00, 0xFF, 0x00, 0xFF].map (fun v =>
                  Call.bulk 7 (Pipe.sndbulk 7 2) [v] 1 (2 * (fails_on is_chunk_5).HZ))) ∧
        (∃ dev, (xylo_led_probe (fails_on is_chunk_5) 7 ⟨none, false⟩ World.empty).2.1.intfdata
          = some dev)) ∧
      (r13 < 0 →
        (xylo_led_probe (fails_on is_chunk_5) 7 ⟨none, false⟩ World.empty).1 = r13 ∧
        calls ((xylo_led_probe (fails_on is_chunk_5) 7 ⟨none, false⟩ World.empty).2.2.trace.drop
          World.empty.trace.length)
          = Call.set_interface 7 0 1 :: spec_bring_up_calls 7) :=
  ⟨by decide, by decide, by decide,
    C7_attach_runs_animation_unless_last_transfer_fails (fails_on is_chunk_5) 7 ⟨none, false⟩
      World.empty (by decide) (by decide) (by decide)⟩

/-- C7 as stated fails: the session is allocated, the /sys entry is created and the
alternate setting is selected, and only the final transfer of the bring-up, the
reset-release, fails with -110; then `xylo_led_probe` returns -110, not 0, and after the
fourteen calls made so far no ledmask write follows. -/
theorem C7_counterexample :
    (fails_on is_reset_release).kmalloc_ok = true ∧
    0 ≤ (fails_on is_reset_release).device_create_file ∧
    0 ≤ (fails_on is_reset_release).usb World.empty.trace (Call.set_interface 7 0 1) ∧
    (xylo_led_probe (fails_on is_reset_release) 7 ⟨none, false⟩ World.empty).1 = -110 ∧
    (xylo_led_probe (fails_on is_reset_release) 7 ⟨none, false⟩ World.empty).1 ≠ 0 ∧
    calls (xylo_led_probe (fails_on is_reset_release) 7 ⟨none, false⟩ World.empty).2.2.trace
      = Call.set_interface 7 0 1 :: spec_bring_up_calls 7 ∧
    ledmask_writes
      (xylo_led_probe (fails_on is_reset_release) 7 ⟨none, false⟩ World.empty).2.2.trace = [] := by
  decide

/-- C9, as the code has it: when the text written to the attribute of a live session does
not, after leading white space, start with a hexadecimal digit (the empty text, `zz`),
nothing is converted and no error is reported for it: `xylo_led_sys_write` stores 0 in
the mirror, makes one bulk transfer carrying the byte 0, and returns `count` when that
transfer returned a non-negative value and the transfer's negative value otherwise. -/
theorem C9_unparsable_text_writes_zero (K : Kernel) (intf : usb_interface) (dev : usb_xylo_led)
    (buf : List Nat) (count : Nat) (w : World) (hs : intf.intfdata = some dev)
    (hc : count < 2 ^ 63) (hp : isxdigit ((skip_spaces buf).headD 0) = false) :
    (sscanf_x buf 0).1 = 0 ∧
    (xylo_led_sys_write K intf buf count w).2.1.intfdata = some { dev with ledmask := 0 } ∧
    (xylo_led_sys_write K intf buf count w).2.2.trace
      = w.trace ++ [Event.xfer (Call.bulk dev.udev (Pipe.sndbulk dev.udev 2) [0] 1 (2 * K.HZ))
          (K.usb w.trace (Call.bulk dev.udev (Pipe.sndbulk dev.udev 2) [0] 1 (2 * K.HZ)))] ∧
    (K.usb w.trace (Call.bulk dev.udev (Pipe.sndbulk dev.udev 2) [0] 1 (2 * K.HZ)) < 0 →
      (xylo_led_sys_write K intf buf count w).1
        = Outcome.ret (K.usb w.trace (Call.bulk dev.udev (Pipe.sndbulk dev.udev 2) [0] 1 (2 * K.HZ)))) ∧
    (0 ≤ K.usb w.trace (Call.bulk dev.udev (Pipe.sndbulk dev.udev 2) [0] 1 (2 * K.HZ)) →
      (xylo_led_sys_write K intf buf count w).1 = Outcome.ret (count : Int)) := by
  have hscan : sscanf_x buf 0 = (0, 0) := by
    rw [sscanf_x, if_pos (Or.inr hp)]
  obtain ⟨h1, h2, h3⟩ := send_bulk_ledmask_buf_run K dev buf w
  have hz : to_uchar (0 : Int) = 0 := by decide
  rw [hscan, hz] at h1 h2 h3
  have hcount : to_ssize_t count = (count : Int) := by
    simp only [to_ssize_t]
    split <;> omega
  refine ⟨by rw [hscan], ?_, ?_, ?_, ?_⟩
  · simp only [xylo_led_sys_write, hs]
    split <;> simp [h2]
  · simp only [xylo_led_sys_write, hs]
    split <;> exact h3
  · intro hneg
    simp only [xylo_led_sys_write, hs]
    rw [if_pos (by rw [h1]; exact hneg), h1]
    rfl
  · intro hpos
    simp only [xylo_led_sys_write, hs]
    rw [if_neg (by rw [h1]; exact not_lt.mpr hpos), hcount]

theorem C9_witness :
    (2 : Nat) < 2 ^ 63 ∧ isxdigit ((skip_spaces (bytes "zz")).headD 0) = false ∧
    (xylo_led_sys_write (kernel_with (fun _ _ => 0)) ⟨some ⟨7, 3⟩, true⟩ (bytes "zz") 2
      World.empty).2.1.intfdata = some ⟨7, 0⟩ ∧
    (xylo_led_sys_write (kernel_with (fun _ _ => 0)) ⟨some ⟨7, 3⟩, true⟩ (bytes "zz") 2
      World.empty).2.2.trace = [Event.xfer (Call.bulk 7 (Pipe.sndbulk 7 2) [0] 1 500) 0] :=
  ⟨by decide, by decide,
    (C9_unparsable_text_writes_zero (kernel_with (fun _ _ => 0)) ⟨some ⟨7, 3⟩, true⟩ ⟨7, 3⟩
      (bytes "zz") 2 World.empty rfl (by decide) (by decide)).2.1,
    (C9_unparsable_text_writes_zero (kernel_with (fun _ _ => 0)) ⟨some ⟨7, 3⟩, true⟩ ⟨7, 3⟩
      (bytes "zz") 2 World.empty rfl (by decide) (by decide)).2.2.1⟩

/-- C9 as stated fails: writing `zz`, or the empty text, to the attribute of a session whose
mirror holds 3 reports no error (the write returns `count`), makes a bulk transfer, and
changes the mirror to 0. -/
theorem C9_counterexample :
    xylo_led_sys_write (kernel_with (fun _ _ => 0)) ⟨some ⟨7, 3⟩, true⟩ (bytes "zz") 2 World.empty
      = (Outcome.ret 2, ⟨some ⟨7, 0⟩, true⟩,
          ⟨[Event.xfer (Call.bulk 7 (Pipe.sndbulk 7 2) [0] 1 500) 0], []⟩) ∧
    xylo_led_sys_write (kernel_with (fun _ _ => 0)) ⟨some ⟨7, 3⟩, true⟩ (bytes "") 0 World.empty
      = (Outcome.ret 0, ⟨some ⟨7, 0⟩, true⟩,
          ⟨[Event.xfer (Call.bulk 7 (Pipe.sndbulk 7 2) [0] 1 500) 0], []⟩) := by
  decide

end XyloLed
